import Mathlib

/-!
Verification of the response-normalization layer of the CosmicCompass
space-explorer application (`main.py`).

The Python strings are embedded as `List Char`; the HTTP layer, the
text-generation model and the random source are inputs of the embedded
functions (an `HttpOutcome` value, a generation oracle, and a choice
index), exactly as the specification treats them: opaque collaborators.
Every normalizer below is translated statement-by-statement from
`main.py`; names follow the source (the Python leading underscore of the
two weather helpers is dropped, Lean identifiers aside the functions are
unchanged).
-/

set_option maxRecDepth 4096

abbrev Str := List Char

/-- Python `a.startswith(b)` / prefix test on embedded strings,
written as a boolean recursion so proofs can unfold it char by char. -/
def isPrefixB : Str → Str → Bool
  | [], _ => true
  | _ :: _, [] => false
  | a :: as, b :: bs => (a == b) && isPrefixB as bs

/-- Python `sep in s` (substring containment): `sep` matches at some
position of `s`.  For the empty `sep` this is `true`, as in Python. -/
def occursB (sep : Str) : Str → Bool
  | [] => decide (sep = [])
  | x :: xs => isPrefixB sep (x :: xs) || occursB sep xs

/-- Python `s.lower()`, restricted to the ASCII case mapping of `Char.toLower`. -/
def lowerStr (s : Str) : Str := s.map Char.toLower

/-- Python `s.strip()`: drop whitespace from both ends. -/
def trimStr (s : Str) : Str :=
  ((s.dropWhile Char.isWhitespace).reverse.dropWhile Char.isWhitespace).reverse

/-- The prompt marker token `"explain:"` of `chat_with_space_expert`
(`main.py` line 108). -/
def marker : Str := "explain:".toList

/-- The tail of `marker` after its first character. -/
def markerTail : Str := "xplain:".toList

/-- Embedding of Python `response.split("explain:")[-1]` (`main.py` line
108): `str.split` scans left to right, consuming each non-overlapping
match of the separator and restarting right after it; the `[-1]` element
is the piece after the last consumed match, the whole string when the
separator never matches. -/
def splitLastPiece : Str → Str
  | [] => []
  | x :: xs =>
    if isPrefixB marker (x :: xs) then
      splitLastPiece (List.drop marker.length (x :: xs))
    else if occursB marker xs then
      splitLastPiece xs
    else
      x :: xs
termination_by s => s.length
decreasing_by
  · have h8 : marker.length = 8 := by decide
    simp [h8, List.length_drop]
    omega
  · simp

/-- Modelled from the spec: the raw text with everything up to and
including the last occurrence of the marker removed ("strip everything up
to and including the last occurrence of that marker"); the text itself
when the marker does not occur. -/
def afterLastOcc : Str → Str
  | [] => []
  | x :: xs =>
    if occursB marker xs then afterLastOcc xs
    else if isPrefixB marker (x :: xs) then List.drop marker.length (x :: xs)
    else x :: xs

/-! ### Shared string constants (verbatim from `main.py`) -/

/-- Decimal rendering of a status code, as Python string interpolation does. -/
def natStr (n : Nat) : Str := (Nat.repr n).toList

def sStatusCode : Str := "Status code: ".toList

def sNoTitle : Str := "No title".toList

def sNoDescription : Str := "No description".toList

def sUnknownDate : Str := "Unknown date".toList

/-- Python `str(KeyError('data'))`, raised by `item['data']` when the key is absent. -/
def eData : Str := "\x27data\x27".toList

/-- Python `str(IndexError(...))`, raised by `item['data'][0]` on an empty list. -/
def eIndex : Str := "list index out of range".toList

/-- Python `str(KeyError('href'))`, raised by `item['links'][0]['href']`. -/
def eHref : Str := "\x27href\x27".toList

/-- Python `str(KeyError('collection'))`, raised by `data['collection']`. -/
def eCollection : Str := "\x27collection\x27".toList

def sPromptPre : Str := "As a space expert, explain: ".toList

def sHouston : Str := "Houston, we have a problem!".toList

def sHoustonFull : Str := "Houston, we have a problem! 🚀 Please try asking that question differently. Error: ".toList

def sRocket : Str := "🚀 ".toList

def sFunFactSep : Str := "\n\n✨ Fun Fact: ".toList

def funFact1 : Str := "A day on Venus is longer than its year! 😮".toList

def funFact2 : Str := "The footprints on the Moon will stay there for millions of years! 👣".toList

def funFact3 : Str := "Saturn could float in a giant bathtub because it\x27s less dense than water! 🛁".toList

/-- `self.space_knowledge['fun_facts']` (`main.py` lines 31-37). -/
def fun_facts : List Str := [funFact1, funFact2, funFact3]

def sReport : Str := "Report".toList

def sWatch : Str := "Watch".toList

def sWarning : Str := "Warning".toList

def sAlert : Str := "Alert".toList

def sUfo : Str := "🛸".toList

def sWarnSign : Str := "⚠️".toList

def sSiren : Str := "🚨".toList

def sZap : Str := "⚡".toList

def sSpaceWeatherMid : Str := " Space Weather ".toList

def sFlare : Str := "flare".toList

def sAurora : Str := "aurora".toList

def sActive : Str := "Active".toList

def sCalm : Str := "Calm".toList

def sVisible : Str := "Visible".toList

def sNotVisible : Str := "Not Visible".toList

def sSun : Str := "🌞".toList

def sGalaxy : Str := "🌌".toList

def sCurrentActivity : Str := "Current Activity".toList

def sSolarActivity : Str := "Solar Activity".toList

def sAuroraForecast : Str := "Aurora Forecast".toList

def sWeatherUnavailable : Str := "Space weather information currently unavailable".toList

def sPerfect : Str := "🌟 Perfect Space Weather".toList

def sSparkle : Str := "✨".toList

def sLow : Str := "Low".toList

def sMoon : Str := "🌙".toList

def sPerfectDesc : Str := "Perfect conditions for stargazing tonight! The Milky Way should be clearly visible.".toList

def sAuroraAlert : Str := "🌠 Aurora Alert".toList

def sHigh : Str := "High".toList

def sFireworks : Str := "🎆".toList

def sAuroraDesc : Str := "A solar storm is creating perfect conditions for aurora viewing! Look toward the northern horizon tonight.".toList

def sMeteor : Str := "☄️ Meteor Shower".toList

def sComet : Str := "☄️".toList

def sSpecialEvent : Str := "Special Event".toList

def sNormal : Str := "Normal".toList

def sMeteorDesc : Str := "A meteor shower is expected tonight! Best viewing hours are between 11 PM and 3 AM.".toList

/-! ### HTTP outcomes -/

/-- Outcome of one `requests.get` call as the normalizers observe it:
either some exception was raised (with its `str(e)` description), or a
response arrived with a status code and an already-parsed JSON body. -/
inductive HttpOutcome (β : Type) where
  | failure (err : Str)
  | response (status : Nat) (body : β)
deriving DecidableEq

/-! ### Daily image normalizer (`get_daily_nasa_image`, `main.py` lines 39-55) -/

/-- JSON body of the APOD endpoint: each consumed field may be absent
(`data.get(...)` returns `None` then). -/
structure ApodBody where
  title : Option Str
  url : Option Str
  explanation : Option Str
  date : Option Str
deriving DecidableEq

/-- The two dict shapes `get_daily_nasa_image` returns: the success dict
with the four (possibly `None`) fields, or the failure dict with an
`error` string. -/
inductive DailyImageResult where
  | ok (title url explanation date : Option Str)
  | err (error : Str)
deriving DecidableEq

/-- The `success` key of the returned dict. -/
def DailyImageResult.success : DailyImageResult → Bool
  | .ok .. => true
  | .err _ => false

/-- The `error` key of the returned dict (absent on success). -/
def DailyImageResult.error : DailyImageResult → Option Str
  | .ok .. => none
  | .err e => some e

/-- The error string `f'Status code: {response.status_code}'`. -/
def statusMsg (status : Nat) : Str := sStatusCode ++ natStr status

/-- `SpaceImageExplorer.get_daily_nasa_image` (`main.py` lines 39-55). -/
def get_daily_nasa_image (out : HttpOutcome ApodBody) : DailyImageResult :=
  match out with
  | .failure e => .err e
  | .response status body =>
    if status = 200 then
      .ok body.title body.url body.explanation body.date
    else
      .err (statusMsg status)

/-! ### Search normalizer (`search_nasa_images`, `main.py` lines 57-78) -/

/-- One entry of an item's `links` array; its `href` key may be absent. -/
structure SearchLink where
  href : Option Str
deriving DecidableEq

/-- One entry of an item's `data` array; the three consumed keys may be
absent (read with `.get` and a default). -/
structure SearchDataEntry where
  title : Option Str
  description : Option Str
  date_created : Option Str
deriving DecidableEq

/-- One item of the search response; the `links` and `data` keys may be
absent altogether. -/
structure SearchItem where
  links : Option (List SearchLink)
  data : Option (List SearchDataEntry)
deriving DecidableEq

/-- The `collection` container; its `items` key may be absent. -/
structure SearchCollection where
  items : Option (List SearchItem)
deriving DecidableEq

/-- JSON body of the search endpoint; the `collection` key may be absent. -/
structure SearchBody where
  collection : Option SearchCollection
deriving DecidableEq

/-- One normalized image dict built inside the loop (`main.py` lines 68-73). -/
structure SearchImageItem where
  title : Str
  description : Str
  url : Str
  date_created : Str
deriving DecidableEq

/-- The two dict shapes `search_nasa_images` returns. -/
inductive SearchResult where
  | ok (images : List SearchImageItem)
  | err (error : Str)
deriving DecidableEq

/-- The `success` key of the returned dict. -/
def SearchResult.success : SearchResult → Bool
  | .ok _ => true
  | .err _ => false

/-- The images carried by the result (none when the result is the failure dict). -/
def SearchResult.images : SearchResult → List SearchImageItem
  | .ok l => l
  | .err _ => []

/-- One iteration of the loop body (`main.py` lines 67-74): skip the item
when `links` is absent or empty (falsy); otherwise build the image dict,
whose key expressions are evaluated in order — `item['data'][0]` first
(raising `KeyError('data')` or `IndexError` when malformed), then
`item['links'][0]['href']` (raising `KeyError('href')` when absent).
`Except.error` carries the `str(e)` of the exception that aborts the loop. -/
def processItem (item : SearchItem) : Except Str (Option SearchImageItem) :=
  match item.links with
  | none => .ok none
  | some [] => .ok none
  | some (l0 :: _) =>
    match item.data with
    | none => .error eData
    | some [] => .error eIndex
    | some (d0 :: _) =>
      match l0.href with
      | none => .error eHref
      | some href =>
        .ok (some { title := d0.title.getD sNoTitle,
                    description := d0.description.getD sNoDescription,
                    url := href,
                    date_created := d0.date_created.getD sUnknownDate })

/-- The whole loop over the (already truncated) item list: the images
collected so far are discarded as soon as one iteration raises. -/
def processItems : List SearchItem → Except Str (List SearchImageItem)
  | [] => .ok []
  | item :: rest =>
    match processItem item with
    | .error e => .error e
    | .ok r =>
      match processItems rest with
      | .error e => .error e
      | .ok imgs =>
        .ok (match r with
             | none => imgs
             | some img => img :: imgs)

/-- `SpaceImageExplorer.search_nasa_images` (`main.py` lines 57-78).
`data['collection']` raises `KeyError('collection')` when the key is
absent; `'items' in data['collection']` failing leaves `images = []`;
the loop runs over `data['collection']['items'][:5]`. -/
def search_nasa_images (out : HttpOutcome SearchBody) : SearchResult :=
  match out with
  | .failure e => .err e
  | .response status body =>
    if status = 200 then
      match body.collection with
      | none => .err eCollection
      | some coll =>
        match coll.items with
        | none => .ok []
        | some items =>
          match processItems (items.take 5) with
          | .ok imgs => .ok imgs
          | .error e => .err e
    else
      .err (statusMsg status)

/-- Spec-side predicate: the item carries a non-empty `links` array
(the loop's `if 'links' in item and item['links']` guard). -/
def hasLinksB (item : SearchItem) : Bool :=
  match item.links with
  | some (_ :: _) => true
  | _ => false

/-- Spec-side normalization of one item: the image it contributes, `none`
when it is skipped or when processing it would raise. -/
def itemImage? (item : SearchItem) : Option SearchImageItem :=
  match processItem item with
  | .ok r => r
  | .error _ => none

/-! ### Chat normalizer (`chat_with_space_expert`, `main.py` lines 80-118) -/

/-- The `response` local after line 108: keep only the last
`split("explain:")` piece, stripped, when the lowercased raw text
contains `"explain:"`; the raw text unmodified otherwise. -/
def chatExplSegment (raw : Str) : Str :=
  if occursB marker (lowerStr raw) then trimStr (splitLastPiece raw) else raw

/-- `SpaceImageExplorer.chat_with_space_expert` (`main.py` lines 80-118).
The tokenizer / `model.generate` / `decode` pipeline is the oracle `gen`,
mapping the built prompt to the decoded raw text or to the description of
the exception it raises; `factIdx` stands for the `random.choice` draw
over the three fun facts. -/
def chat_with_space_expert (message : Str) (gen : Str → Except Str Str)
    (factIdx : Nat) : Str :=
  match gen (sPromptPre ++ message) with
  | .ok raw =>
    sRocket ++ chatExplSegment raw ++ sFunFactSep ++ fun_facts.getD (factIdx % 3) []
  | .error e => sHoustonFull ++ e

/-! ### Weather normalizer (`get_space_weather` and helpers, `main.py` lines 120-191) -/

/-- One entry of the DONKI notifications array; both consumed keys may be
absent (read with `.get` and a default). -/
structure NotifEntry where
  messageType : Option Str
  messageBody : Option Str
deriving DecidableEq

structure WeatherCondition where
  label : Str
  value : Str
  emoji : Str
deriving DecidableEq

structure WeatherResult where
  status : Str
  conditions : List WeatherCondition
  description : Str
  time : Str
deriving DecidableEq

/-- The `weather_types.get(message_type, "🛸")` lookup (`main.py` lines 135-143). -/
def weather_types_get (mt : Str) : Str :=
  if mt = sReport then sUfo
  else if mt = sWatch then sWarnSign
  else if mt = sWarning then sSiren
  else if mt = sAlert then sZap
  else sUfo

/-- `SpaceImageExplorer._format_real_weather` (`main.py` lines 133-156);
`now` stands for `datetime.now().strftime("%I:%M %p")`. -/
def format_real_weather (d : NotifEntry) (now : Str) : WeatherResult :=
  let message_type := d.messageType.getD sReport
  let emoji := weather_types_get message_type
  { status := emoji ++ sSpaceWeatherMid ++ message_type,
    conditions := [
      { label := sCurrentActivity, value := message_type, emoji := emoji },
      { label := sSolarActivity,
        value := if occursB sFlare (lowerStr (d.messageBody.getD [])) then sActive else sCalm,
        emoji := sSun },
      { label := sAuroraForecast,
        value := if occursB sAurora (lowerStr (d.messageBody.getD [])) then sVisible else sNotVisible,
        emoji := sGalaxy }],
    description := d.messageBody.getD sWeatherUnavailable,
    time := now }

/-- First fallback scenario (`main.py` lines 161-169); `time` is filled in
only after the choice, hence the empty placeholder. -/
def scenario1 : WeatherResult :=
  { status := sPerfect,
    conditions := [
      { label := sCurrentActivity, value := sCalm, emoji := sSparkle },
      { label := sSolarActivity, value := sLow, emoji := sSun },
      { label := sAuroraForecast, value := sNotVisible, emoji := sMoon }],
    description := sPerfectDesc,
    time := [] }

/-- Second fallback scenario (`main.py` lines 170-178). -/
def scenario2 : WeatherResult :=
  { status := sAuroraAlert,
    conditions := [
      { label := sCurrentActivity, value := sActive, emoji := sZap },
      { label := sSolarActivity, value := sHigh, emoji := sSun },
      { label := sAuroraForecast, value := sVisible, emoji := sFireworks }],
    description := sAuroraDesc,
    time := [] }

/-- Third fallback scenario (`main.py` lines 179-187). -/
def scenario3 : WeatherResult :=
  { status := sMeteor,
    conditions := [
      { label := sCurrentActivity, value := sSpecialEvent, emoji := sComet },
      { label := sSolarActivity, value := sNormal, emoji := sSun },
      { label := sAuroraForecast, value := sNotVisible, emoji := sMoon }],
    description := sMeteorDesc,
    time := [] }

/-- `SpaceImageExplorer._generate_simulated_weather` (`main.py` lines
158-191); `idx` stands for the `random.choice` draw over the three
scenarios, `now` for `datetime.now().strftime("%I:%M %p")`. -/
def generate_simulated_weather (idx : Nat) (now : Str) : WeatherResult :=
  let weather := [scenario1, scenario2, scenario3].getD (idx % 3) scenario1
  { weather with time := now }

/-- `SpaceImageExplorer.get_space_weather` (`main.py` lines 120-131): any
exception of the attempt (including a transport failure) falls through to
the simulated fallback, as do a non-200 status and an empty (falsy) body. -/
def get_space_weather (out : HttpOutcome (List NotifEntry)) (idx : Nat)
    (now : Str) : WeatherResult :=
  match out with
  | .failure _ => generate_simulated_weather idx now
  | .response status body =>
    if status = 200 then
      match body with
      | first :: _ => format_real_weather first now
      | [] => generate_simulated_weather idx now
    else
      generate_simulated_weather idx now

/-! ### Concrete inputs used by witnesses and counterexamples -/

def sBoom : Str := "boom".toList

def sForecast : Str := "Forecast".toList

def sNoon : Str := "12:00 PM".toList

def sFlareBody : Str := "Solar Flare detected".toList

def sU1 : Str := "u1".toList

def sU2 : Str := "u2".toList

def sT1 : Str := "t1".toList

def sD1 : Str := "d1".toList

def sC1 : Str := "c1".toList

/-- A search item with no `links` key at all. -/
def noLinkItem : SearchItem := ⟨none, some [⟨none, none, none⟩]⟩

/-- A fully well-formed search item. -/
def goodItem : SearchItem :=
  ⟨some [⟨some sU1⟩], some [⟨some sT1, some sD1, some sC1⟩]⟩

/-- The image `goodItem` normalizes to. -/
def goodImage : SearchImageItem := ⟨sT1, sD1, sU1, sC1⟩

/-- A search item with a non-empty `links` array but no `data` key. -/
def badDataItem : SearchItem := ⟨some [⟨some sU2⟩], none⟩

/-- A search item whose first link carries the empty string as `href`. -/
def emptyHrefItem : SearchItem := ⟨some [⟨some []⟩], some [⟨none, none, none⟩]⟩

/-- Six items of which only the last carries links: the capped loop never
reaches it. -/
def itemsSix : List SearchItem := List.replicate 5 noLinkItem ++ [goodItem]

/-- A well-formed item followed by a malformed link-bearing one. -/
def itemsAbort : List SearchItem := [goodItem, badDataItem]

/-- A linkless item followed by a well-formed one. -/
def itemsMixed : List SearchItem := [noLinkItem, goodItem]

/-- A DONKI entry with an unrecognized message type. -/
def entryForecast : NotifEntry := ⟨some sForecast, some []⟩

/-- A DONKI entry of type Watch whose body mentions a flare in mixed case. -/
def entryWatch : NotifEntry := ⟨some sWatch, some sFlareBody⟩

/-! ### Lemmas on the embedded string operations -/

theorem isPrefixB_exists {a b : Str} (h : isPrefixB a b = true) : ∃ t, b = a ++ t := by
  induction a generalizing b with
  | nil => exact ⟨b, rfl⟩
  | cons x as ih =>
    cases b with
    | nil => simp [isPrefixB] at h
    | cons y bs =>
      simp only [isPrefixB, Bool.and_eq_true, beq_iff_eq] at h
      obtain ⟨t, ht⟩ := ih h.2
      exact ⟨t, by rw [List.cons_append, ht, h.1]⟩

theorem isPrefixB_refl (a : Str) : isPrefixB a a = true := by
  induction a with
  | nil => rfl
  | cons x as ih => simp [isPrefixB, ih]

theorem isPrefixB_append_of {a b : Str} (c : Str) (h : isPrefixB a b = true) :
    isPrefixB a (b ++ c) = true := by
  induction a generalizing b with
  | nil => rfl
  | cons x as ih =>
    cases b with
    | nil => simp [isPrefixB] at h
    | cons y bs =>
      simp only [isPrefixB, Bool.and_eq_true, beq_iff_eq] at h
      simp only [List.cons_append, isPrefixB, Bool.and_eq_true, beq_iff_eq]
      exact ⟨h.1, ih h.2⟩

theorem occursB_self (a : Str) : occursB a a = true := by
  cases a with
  | nil => rfl
  | cons x xs => simp [occursB, isPrefixB_refl]

theorem occursB_of_isPrefixB {sep r : Str} (h : isPrefixB sep r = true) :
    occursB sep r = true := by
  cases r with
  | nil =>
    cases sep with
    | nil => rfl
    | cons s ss => simp [isPrefixB] at h
  | cons x xs => simp [occursB, h]

theorem occursB_append_right (sep u t : Str) (h : occursB sep t = true) :
    occursB sep (u ++ t) = true := by
  induction u with
  | nil => simpa using h
  | cons a u' ih => simp [occursB, ih]

theorem markerEq : marker = 'e' :: markerTail := by decide

theorem markerTail_no_e : ∀ c ∈ markerTail, ('e' == c) = false := by decide

theorem isPrefixB_marker_cons {a : Char} (r : Str) (ha : ('e' == a) = false) :
    isPrefixB marker (a :: r) = false := by
  rw [markerEq, isPrefixB, ha]
  rfl

theorem occursB_marker_strip : ∀ u t : Str, (∀ c ∈ u, ('e' == c) = false) →
    occursB marker (u ++ t) = true → occursB marker t = true := by
  intro u
  induction u with
  | nil => intro t _ h; simpa using h
  | cons a u' ih =>
    intro t hno h
    have ha : ('e' == a) = false := hno a (by simp)
    rw [List.cons_append, occursB, isPrefixB_marker_cons _ ha] at h
    simp only [Bool.false_or] at h
    exact ih t (fun c hc => hno c (by simp [hc])) h

theorem afterLastOcc_append : ∀ u t : Str, occursB marker t = true →
    afterLastOcc (u ++ t) = afterLastOcc t := by
  intro u
  induction u with
  | nil => intro t _; rfl
  | cons a u' ih =>
    intro t h
    have hq : occursB marker (u' ++ t) = true := occursB_append_right marker u' t h
    rw [List.cons_append, afterLastOcc, hq]
    simp only [if_true]
    exact ih t h

theorem splitLastPiece_no_occ {r : Str} (h : occursB marker r = false) :
    splitLastPiece r = r := by
  cases r with
  | nil => simp [splitLastPiece]
  | cons x xs =>
    rw [occursB] at h
    simp only [Bool.or_eq_false_iff] at h
    rw [splitLastPiece, h.1, h.2]
    rfl

theorem slp_eq_alo (s : Str) : splitLastPiece s = afterLastOcc s := by
  match s with
  | [] => simp [splitLastPiece, afterLastOcc]
  | x :: xs =>
    cases hP : isPrefixB marker (x :: xs) with
    | false =>
      cases hQ : occursB marker xs with
      | false => rw [splitLastPiece, hP, hQ, afterLastOcc, hQ, hP]; rfl
      | true =>
        have ih := slp_eq_alo xs
        rw [splitLastPiece, hP, hQ, afterLastOcc, hQ]
        simpa using ih
    | true =>
      obtain ⟨t, ht⟩ := isPrefixB_exists hP
      have hxs : xs = markerTail ++ t := by
        have h2 := ht
        rw [markerEq, List.cons_append] at h2
        injection h2 with _ h2
      cases hQ : occursB marker xs with
      | false =>
        have hnt : occursB marker t = false := by
          cases hoc : occursB marker t with
          | false => rfl
          | true =>
            have hc := occursB_append_right marker markerTail t hoc
            rw [← hxs, hQ] at hc
            cases hc
        have hdrop : List.drop marker.length (x :: xs) = t := by
          rw [ht, List.drop_left]
        rw [splitLastPiece, hP, afterLastOcc, hQ, hP]
        simp [hdrop, splitLastPiece_no_occ hnt]
      | true =>
        have hot : occursB marker t = true := by
          apply occursB_marker_strip markerTail t markerTail_no_e
          rw [← hxs]
          exact hQ
        have ih := slp_eq_alo t
        have halo : afterLastOcc xs = afterLastOcc t := by
          rw [hxs]
          exact afterLastOcc_append markerTail t hot
        have hdrop : List.drop marker.length (x :: xs) = t := by
          rw [ht, List.drop_left]
        rw [splitLastPiece, hP, afterLastOcc, hQ]
        simp only [if_true]
        rw [hdrop, ih, halo]
termination_by s.length
decreasing_by
  · simp
  · have h8 : marker.length = 8 := by decide
    have hlen : (x :: xs).length = 8 + t.length := by
      rw [ht, List.length_append, h8]
    simp only [hlen]
    omega

/-! ### Lemmas on the search loop -/

theorem processItems_ok_filterMap : ∀ (l : List SearchItem) (imgs : List SearchImageItem),
    processItems l = .ok imgs → imgs = l.filterMap itemImage? := by
  intro l
  induction l with
  | nil =>
    intro imgs h
    simp only [processItems] at h
    cases h
    rfl
  | cons i l' ih =>
    intro imgs h
    rw [processItems] at h
    cases hpi : processItem i with
    | error e => rw [hpi] at h; cases h
    | ok r =>
      rw [hpi] at h
      cases hpl : processItems l' with
      | error e => rw [hpl] at h; cases h
      | ok rest =>
        rw [hpl] at h
        cases h
        have hrest := ih rest hpl
        cases r with
        | none => simp [List.filterMap_cons, itemImage?, hpi, hrest]
        | some img => simp [List.filterMap_cons, itemImage?, hpi, hrest]

theorem processItem_shape (i : SearchItem) (r : Option SearchImageItem)
    (h : processItem i = .ok r) :
    (hasLinksB i = false ∧ r = none) ∨ (hasLinksB i = true ∧ ∃ img, r = some img) := by
  cases hl : i.links with
  | none =>
    simp only [processItem, hl] at h
    cases h
    exact Or.inl ⟨by rw [hasLinksB, hl], rfl⟩
  | some ls =>
    cases ls with
    | nil =>
      simp only [processItem, hl] at h
      cases h
      exact Or.inl ⟨by rw [hasLinksB, hl], rfl⟩
    | cons l0 lrest =>
      have hlb : hasLinksB i = true := by rw [hasLinksB, hl]
      cases hd : i.data with
      | none => simp only [processItem, hl, hd] at h; cases h
      | some ds =>
        cases ds with
        | nil => simp only [processItem, hl, hd] at h; cases h
        | cons d0 drest =>
          cases hh : l0.href with
          | none => simp only [processItem, hl, hd, hh] at h; cases h
          | some u =>
            simp only [processItem, hl, hd, hh] at h
            cases h
            exact Or.inr ⟨hlb, _, rfl⟩

theorem processItems_ok_count : ∀ (l : List SearchItem) (imgs : List SearchImageItem),
    processItems l = .ok imgs → (l.filterMap itemImage?).length = l.countP hasLinksB := by
  intro l
  induction l with
  | nil => intro imgs _; rfl
  | cons i l' ih =>
    intro imgs h
    rw [processItems] at h
    cases hpi : processItem i with
    | error e => rw [hpi] at h; cases h
    | ok r =>
      rw [hpi] at h
      cases hpl : processItems l' with
      | error e => rw [hpl] at h; cases h
      | ok rest =>
        have htl := ih rest hpl
        rcases processItem_shape i r hpi with ⟨hlb, hr⟩ | ⟨hlb, img, hr⟩ <;>
          subst hr <;>
          simp [List.filterMap_cons, List.countP_cons, itemImage?, hpi, hlb, htl]

/-- Definitional reduction of the 200-with-items search path. -/
theorem search_200_items (items : List SearchItem) :
    search_nasa_images (.response 200 ⟨some ⟨some items⟩⟩) =
      match processItems (items.take 5) with
      | .ok imgs => .ok imgs
      | .error e => .err e := rfl

/-- Definitional reduction of the weather fallback path on a failed call. -/
theorem weather_failure_fallback (e : Str) (idx : Nat) (now : Str) :
    get_space_weather (.failure e) idx now = generate_simulated_weather idx now := rfl

/-! ### Claims -/

/-- C1: for every execution of `get_space_weather` in which the
notifications HTTP call fails (timeout, connection error, or any
exception), the function never raises — it is a total function of the
call outcome — and returns a `WeatherResult` that is one of the three
fixed fallback scenarios: "🌟 Perfect Space Weather", "🌠 Aurora Alert"
or "☄️ Meteor Shower", with that scenario's conditions and description
verbatim from the fixed scenario table (only `time` is stamped). -/
theorem c1_weather_fallback_scenarios (e : Str) (idx : Nat) (now : Str) :
    (get_space_weather (.failure e) idx now = { scenario1 with time := now } ∧
      scenario1.status = sPerfect) ∨
    (get_space_weather (.failure e) idx now = { scenario2 with time := now } ∧
      scenario2.status = sAuroraAlert) ∨
    (get_space_weather (.failure e) idx now = { scenario3 with time := now } ∧
      scenario3.status = sMeteor) := by
  rw [weather_failure_fallback]
  have h3 : idx % 3 = 0 ∨ idx % 3 = 1 ∨ idx % 3 = 2 := by omega
  rcases h3 with h | h | h
  · exact Or.inl ⟨by simp [generate_simulated_weather, h, List.getD], rfl⟩
  · exact Or.inr (Or.inl ⟨by simp [generate_simulated_weather, h, List.getD], rfl⟩)
  · exact Or.inr (Or.inr ⟨by simp [generate_simulated_weather, h, List.getD], rfl⟩)

/-- C2: `chat_with_space_expert` is a total function of the generation
oracle's behavior — it never raises — and when the generation pipeline
(tokenizer, `model.generate`, or decode) throws, the returned string
starts with "Houston, we have a problem!" and contains the thrown
exception's description text. -/
theorem c2_chat_error_apology (message : Str) (gen : Str → Except Str Str)
    (factIdx : Nat) (e : Str) (h : gen (sPromptPre ++ message) = .error e) :
    isPrefixB sHouston (chat_with_space_expert message gen factIdx) = true ∧
    occursB e (chat_with_space_expert message gen factIdx) = true := by
  rw [chat_with_space_expert, h]
  exact ⟨isPrefixB_append_of e (by decide),
         occursB_append_right e sHoustonFull e (occursB_self e)⟩

/-- C2 witness: a generation stub that throws with text "boom" yields the
apology string carrying "boom". -/
theorem c2_chat_error_apology_witness :
    isPrefixB sHouston (chat_with_space_expert [] (fun _ => .error sBoom) 0) = true ∧
    occursB sBoom (chat_with_space_expert [] (fun _ => .error sBoom) 0) = true :=
  c2_chat_error_apology [] (fun _ => .error sBoom) 0 sBoom rfl

/-- C3 counterexample: the claim predicts that the image count equals the
count of link-bearing items over ALL items, capped at 5; but the code
truncates to the first 5 items BEFORE filtering.  With six items of which
only the sixth carries links, the claim predicts `min 1 5 = 1` image,
while the code returns a successful result with no image at all. -/
theorem c3_counterexample :
    search_nasa_images (.response 200 ⟨some ⟨some itemsSix⟩⟩) = .ok [] ∧
    (search_nasa_images (.response 200 ⟨some ⟨some itemsSix⟩⟩)).images.length = 0 ∧
    min (itemsSix.countP hasLinksB) 5 = 1 := by decide

/-- C3 amended: whenever `search_nasa_images` returns a successful result
for a 200 response (some of whose items may lack a links array), the
images are, in order, the normalizations of the link-bearing items among
the FIRST 5 items, so their number is the count of items with a non-empty
links array among the first 5 (not the overall count capped at 5);
relative order is preserved.  (A malformed link-bearing item among the
first 5 makes the result unsuccessful instead — claim C10.) -/
theorem c3_amended (items : List SearchItem) (imgs : List SearchImageItem)
    (h : search_nasa_images (.response 200 ⟨some ⟨some items⟩⟩) = .ok imgs) :
    imgs = (items.take 5).filterMap itemImage? ∧
    imgs.length = (items.take 5).countP hasLinksB := by
  rw [search_200_items] at h
  cases hq : processItems (items.take 5) with
  | error e => rw [hq] at h; cases h
  | ok l =>
    rw [hq] at h
    cases h
    exact ⟨processItems_ok_filterMap _ _ hq,
           by rw [processItems_ok_filterMap _ _ hq]
              exact processItems_ok_count _ _ hq⟩

/-- C3 witness: one linkless item followed by one well-formed item
normalizes to exactly that item's image. -/
theorem c3_amended_witness :
    [goodImage] = (itemsMixed.take 5).filterMap itemImage? ∧
    [goodImage].length = (itemsMixed.take 5).countP hasLinksB :=
  c3_amended itemsMixed [goodImage] (by decide)

/-- C4: every `WeatherResult` produced by `get_space_weather` — via the
real-data formatting path or the fallback generator — carries exactly 3
conditions whose labels are, in order, "Current Activity",
"Solar Activity", "Aurora Forecast". -/
theorem c4_conditions_labels (out : HttpOutcome (List NotifEntry)) (idx : Nat) (now : Str) :
    (get_space_weather out idx now).conditions.map WeatherCondition.label =
      [sCurrentActivity, sSolarActivity, sAuroraForecast] := by
  have hsim : ∀ (i : Nat) (n : Str),
      (generate_simulated_weather i n).conditions.map WeatherCondition.label =
        [sCurrentActivity, sSolarActivity, sAuroraForecast] := by
    intro i n
    have h3 : i % 3 = 0 ∨ i % 3 = 1 ∨ i % 3 = 2 := by omega
    rcases h3 with h | h | h <;>
      simp [generate_simulated_weather, h, List.getD, scenario1, scenario2, scenario3]
  cases out with
  | failure e => rw [weather_failure_fallback]; exact hsim idx now
  | response status body =>
    by_cases hst : status = 200
    · subst hst
      cases body with
      | nil => simp [get_space_weather]; exact hsim idx now
      | cons first rest => simp [get_space_weather, format_real_weather]
    · simp [get_space_weather, hst]
      exact hsim idx now

/-- C5 counterexample: `str(e)` of an exception can be the empty string
(e.g. an exception constructed without arguments); the code stores it
unchanged, so the failure dict then carries an EMPTY error string,
against the claimed "non-empty error string". -/
theorem c5_counterexample :
    (get_daily_nasa_image (.failure [])).success = false ∧
    (get_daily_nasa_image (.failure [])).error = some [] := by decide

/-- C5 amended: for a status ≠ 200 the result is the failure dict with
the never-empty error string "Status code: N"; for a raised transport
error the result is the failure dict whose error string is exactly the
exception's description — non-empty exactly when that description is. -/
theorem c5_amended (status : Nat) (body : ApodBody) (e : Str) :
    (status ≠ 200 →
      (get_daily_nasa_image (.response status body)).success = false ∧
      (get_daily_nasa_image (.response status body)).error = some (statusMsg status) ∧
      statusMsg status ≠ []) ∧
    ((get_daily_nasa_image (.failure e)).success = false ∧
      (get_daily_nasa_image (.failure e)).error = some e) := by
  constructor
  · intro hne
    simp only [get_daily_nasa_image, if_neg hne]
    refine ⟨rfl, rfl, ?_⟩
    intro hc
    have hnil : sStatusCode = [] := (List.append_eq_nil.mp hc).1
    cases hnil
  · exact ⟨rfl, rfl⟩

/-- C5 witness: status 404 gives the failure dict with error
"Status code: 404"; a transport error described by "boom" gives the
failure dict with error "boom". -/
theorem c5_amended_witness :
    ((get_daily_nasa_image (.response 404 ⟨none, none, none, none⟩)).success = false ∧
      (get_daily_nasa_image (.response 404 ⟨none, none, none, none⟩)).error = some (statusMsg 404) ∧
      statusMsg 404 ≠ []) ∧
    ((get_daily_nasa_image (.failure sBoom)).success = false ∧
      (get_daily_nasa_image (.failure sBoom)).error = some sBoom) :=
  ⟨(c5_amended 404 ⟨none, none, none, none⟩ sBoom).1 (by decide),
   (c5_amended 404 ⟨none, none, none, none⟩ sBoom).2⟩

/-- C6: every 200 daily-image response yields the success dict; each of
the four consumed fields is passed through unchanged, so a missing field
surfaces as `none` (Python `None`), never as a default string. -/
theorem c6_daily_200_passthrough (body : ApodBody) :
    get_daily_nasa_image (.response 200 body) =
      .ok body.title body.url body.explanation body.date ∧
    (get_daily_nasa_image (.response 200 body)).success = true :=
  ⟨rfl, rfl⟩

/-- C7 counterexample: an item whose first link carries the empty string
as `href` IS included, with an empty `url` — the code never checks
`href` for emptiness, against the claimed invariant. -/
theorem c7_counterexample :
    search_nasa_images (.response 200 ⟨some ⟨some [emptyHrefItem]⟩⟩) =
      .ok [⟨sNoTitle, sNoDescription, [], sUnknownDate⟩] ∧
    (⟨sNoTitle, sNoDescription, [], sUnknownDate⟩ : SearchImageItem).url = [] := by
  exact ⟨by decide, rfl⟩

/-- C7 amended: every item included in a successful search result takes
its `url` from the `href` of the first link of a link-bearing source item
among the first 5 (items lacking any link entry are dropped, and a
link-bearing item with a missing `href` fails the whole result instead);
the `url` is therefore non-empty exactly when the service's `href` is. -/
theorem c7_amended (items : List SearchItem) (imgs : List SearchImageItem)
    (h : search_nasa_images (.response 200 ⟨some ⟨some items⟩⟩) = .ok imgs) :
    ∀ img ∈ imgs, ∃ it ∈ items.take 5, ∃ l0 ls,
      it.links = some (l0 :: ls) ∧ l0.href = some img.url := by
  intro img hmem
  rw [search_200_items] at h
  cases hq : processItems (items.take 5) with
  | error e => rw [hq] at h; cases h
  | ok l =>
    rw [hq] at h
    cases h
    rw [processItems_ok_filterMap _ _ hq] at hmem
    obtain ⟨it, hit, hsome⟩ := List.mem_filterMap.mp hmem
    refine ⟨it, hit, ?_⟩
    cases hl : it.links with
    | none => simp only [itemImage?, processItem, hl] at hsome; cases hsome
    | some ls =>
      cases ls with
      | nil => simp only [itemImage?, processItem, hl] at hsome; cases hsome
      | cons l0 lrest =>
        cases hd : it.data with
        | none => simp only [itemImage?, processItem, hl, hd] at hsome; cases hsome
        | some ds =>
          cases ds with
          | nil => simp only [itemImage?, processItem, hl, hd] at hsome; cases hsome
          | cons d0 drest =>
            cases hh : l0.href with
            | none => simp only [itemImage?, processItem, hl, hd, hh] at hsome; cases hsome
            | some u =>
              simp only [itemImage?, processItem, hl, hd, hh] at hsome
              cases hsome
              exact ⟨l0, lrest, rfl, by rw [hh]⟩

/-- C7 witness: the well-formed item of `itemsMixed` yields an image whose
`url` is the `href` of its first link. -/
theorem c7_amended_witness :
    ∃ it ∈ itemsMixed.take 5, ∃ l0 ls,
      it.links = some (l0 :: ls) ∧ l0.href = some goodImage.url :=
  c7_amended itemsMixed [goodImage] (by decide) goodImage (by decide)

/-- C8: the chat post-processing keeps the raw generated text unmodified
when its lowercased form does not contain the marker "explain:";
otherwise it removes everything up to and including the LAST (left-scan)
occurrence of the literal (case-sensitive) marker and trims surrounding
whitespace — `split("explain:")[-1].strip()` computes exactly the suffix
after the last occurrence (the whole text, trimmed, when the marker
occurs only in the lowercased form). -/
theorem c8_chat_postprocess (raw : Str) :
    chatExplSegment raw =
      if occursB marker (lowerStr raw) then trimStr (afterLastOcc raw) else raw := by
  rw [chatExplSegment, slp_eq_alo]

/-- C9 counterexample: an unrecognized message type ("Forecast") is NOT
defaulted to "Report": it is used verbatim in the status string and in
the Current Activity condition; only the emoji falls back to 🛸. -/
theorem c9_counterexample :
    (format_real_weather entryForecast sNoon).status = sUfo ++ sSpaceWeatherMid ++ sForecast ∧
    (format_real_weather entryForecast sNoon).status ≠ sUfo ++ sSpaceWeatherMid ++ sReport ∧
    sForecast ∉ [sReport, sWatch, sWarning, sAlert] := by decide

/-- C9 amended: the message type defaults to "Report" only when the
`messageType` field is ABSENT; its value is otherwise used verbatim in
the status and the Current Activity condition.  The status emoji comes
from the fixed lookup table {Report:🛸, Watch:⚠️, Warning:🚨, Alert:⚡},
with 🛸 for any unrecognized value.  Solar Activity is "Active" exactly
when the message body contains the case-insensitive substring "flare",
else "Calm". -/
theorem c9_amended (d : NotifEntry) (now : Str) :
    ((format_real_weather d now).status =
      weather_types_get (d.messageType.getD sReport) ++ sSpaceWeatherMid ++
        d.messageType.getD sReport) ∧
    ((format_real_weather d now).conditions.map WeatherCondition.value).head? =
      some (d.messageType.getD sReport) ∧
    (weather_types_get sReport = sUfo ∧ weather_types_get sWatch = sWarnSign ∧
      weather_types_get sWarning = sSiren ∧ weather_types_get sAlert = sZap) ∧
    (∀ mt : Str, mt ∉ [sReport, sWatch, sWarning, sAlert] → weather_types_get mt = sUfo) ∧
    ((format_real_weather d now).conditions.map WeatherCondition.value).getD 1 [] =
      (if occursB sFlare (lowerStr (d.messageBody.getD [])) then sActive else sCalm) := by
  refine ⟨rfl, rfl, ⟨by decide, by decide, by decide, by decide⟩, ?_, rfl⟩
  intro mt hmt
  simp only [List.mem_cons, List.not_mem_nil, or_false, not_or] at hmt
  obtain ⟨h1, h2, h3, h4⟩ := hmt
  rw [weather_types_get, if_neg h1, if_neg h2, if_neg h3, if_neg h4]

/-- C9 witness: the unrecognized type "Forecast" maps to the 🛸 emoji, and
a body containing "Flare" in mixed case normalizes Solar Activity to
"Active". -/
theorem c9_amended_witness :
    weather_types_get sForecast = sUfo ∧
    ((format_real_weather entryWatch sNoon).conditions.map WeatherCondition.value).getD 1 []
      = sActive := by
  refine ⟨(c9_amended entryWatch sNoon).2.2.2.1 sForecast (by decide), ?_⟩
  rw [(c9_amended entryWatch sNoon).2.2.2.2]
  decide

/-- C10: search normalization is not atomic per item: a 200 response whose
second item has a non-empty links array but no `data` key makes the whole
call fail with the `KeyError('data')` text, returning no images at all
and discarding the perfectly well-formed first item (which on its own
normalizes to `goodImage`). -/
theorem c10_search_abort :
    search_nasa_images (.response 200 ⟨some ⟨some itemsAbort⟩⟩) = .err eData ∧
    (search_nasa_images (.response 200 ⟨some ⟨some itemsAbort⟩⟩)).success = false ∧
    (search_nasa_images (.response 200 ⟨some ⟨some itemsAbort⟩⟩)).images = [] ∧
    itemImage? goodItem = some goodImage := by decide
